import Mathlib

/-!
Verification of the goveelife integration's capability model and
state-synchronization core.  The definitions below are a shallow embedding
of the Python sources under custom_components/goveelife: JSON/Python values
become an inductive value type, dict state becomes ordered association
lists, async control flow becomes explicit result passing, and raised /
caught exceptions become explicit outcome values.  Each definition names
the source function it embeds.
-/

namespace GoveeLife

/-- Model of a Python/JSON value as the integration handles it: None,
booleans, arbitrary-precision integers, strings, and JSON objects kept as
ordered key/value field lists (Python dicts preserve insertion order and
hold unique keys). -/
inductive PyVal where
  | vnone
  | vbool (b : Bool)
  | vint (n : Int)
  | vstr (s : String)
  | vobj (fields : List (String × PyVal))

mutual

/-- Python equality (==) restricted to the shapes the integration actually
compares: structural equality on the modelled values. -/
def PyVal.beq : PyVal → PyVal → Bool
  | .vnone, .vnone => true
  | .vbool a, .vbool b => a == b
  | .vint a, .vint b => a == b
  | .vstr a, .vstr b => a == b
  | .vobj a, .vobj b => PyVal.beqFields a b
  | _, _ => false

/-- Field-list equality used by PyVal.beq on objects. -/
def PyVal.beqFields : List (String × PyVal) → List (String × PyVal) → Bool
  | [], [] => true
  | (k, v) :: r, (k2, v2) :: r2 => k == k2 && PyVal.beq v v2 && PyVal.beqFields r r2
  | _, _ => false

end

/-- Python truthiness (the `if not x` test) on modelled values. -/
def pyTruthy : PyVal → Bool
  | .vnone => false
  | .vbool b => b
  | .vint n => !(n == 0)
  | .vstr s => !(s == "")
  | .vobj fields => !fields.isEmpty

/-- Python dict.get(key, default) over an object field list. -/
def pyDictGet (d : List (String × PyVal)) (k : String) (dflt : PyVal) : PyVal :=
  match d.find? (fun e => e.1 == k) with
  | some e => e.2
  | none => dflt

/-- Python dict assignment d[k] = v over an association list: overwrite the
existing binding in place, or append a new one (insertion order kept). -/
def listSet {β : Type} (d : List (String × β)) (k : String) (v : β) : List (String × β) :=
  if d.any (fun e => e.1 == k) then d.map (fun e => if e.1 == k then (k, v) else e)
  else d ++ [(k, v)]

/-- Python dict.get(k) over an association list (None when absent, modelled
as Option). -/
def listGet {β : Type} (d : List (String × β)) (k : String) : Option β :=
  (d.find? (fun e => e.1 == k)).map (fun e => e.2)

/-- One capability snapshot held in the State Cache.  The cache code reads
exactly cap['type'], cap['instance'] and cap.get('state') of each entry
(utils.py 261-265), so an entry is modelled by that triple; the state dict,
when present, is an object field list. -/
structure CachedCap where
  ctype : String
  cinst : String
  state : Option (List (String × PyVal))

/-- GoveeAPI_GetCachedStateValue (utils.py 255-271): scan the device's
capability list; on the first (type, instance) match whose state is present
return cap_state.get('value', cap_state.get(value_instance)) — Python None,
modelled as vnone, when both keys are absent; a match with a missing state
falls through to the rest of the scan; no match returns None. -/
def GoveeAPI_GetCachedStateValue (caps : List CachedCap) (value_type value_instance : String) : PyVal :=
  match caps with
  | [] => .vnone
  | cap :: rest =>
    if cap.ctype == value_type && cap.cinst == value_instance then
      match cap.state with
      | some cap_state => pyDictGet cap_state "value" (pyDictGet cap_state value_instance .vnone)
      | none => GoveeAPI_GetCachedStateValue rest value_type value_instance
    else GoveeAPI_GetCachedStateValue rest value_type value_instance

/-- Per-entry State Cache: entry_data[CONF_STATE] maps a device id to the
stored device-state payload, of which only the 'capabilities' list is ever
read; the payload is therefore modelled by its decoded capability list. -/
abbrev StateCache := List (String × List CachedCap)

/-- Cache read used by every entity property (utils.py 258-259):
entry_data.get(CONF_STATE, ...).get(device_id, ...) falling back to an
empty capability list, then the capability scan. -/
def cachedStateValue (cache : StateCache) (device value_type value_instance : String) : PyVal :=
  GoveeAPI_GetCachedStateValue ((listGet cache device).getD []) value_type value_instance

/-- Key comparison used by the patch loop and the cache scan:
cap['type'] == t and cap['instance'] == i. -/
def capKeyIs (t i : String) (c : CachedCap) : Bool :=
  c.ctype == t && c.cinst == i

/-- Echoed-capability patch loop of async_GoveeAPI_ControlDevice (utils.py
238-243): replace the first entry whose (type, instance) equals the echo's
and break; when no entry matches the loop simply ends and the list is
returned unchanged — nothing is appended. -/
def patchCapability (caps : List CachedCap) (new_cap : CachedCap) : List CachedCap :=
  match caps with
  | [] => []
  | cap :: rest =>
    if cap.ctype == new_cap.ctype && cap.cinst == new_cap.cinst then new_cap :: rest
    else cap :: patchCapability rest new_cap

/-- Echo object of a control response: result['capability'] with its
'type', 'instance' and 'value' entries; the value is vnone when the key is
missing or null, matching new_cap.pop('value', None) (utils.py 230). -/
structure ControlEcho where
  ctype : String
  cinst : String
  value : PyVal

/-- Control response body as read by async_GoveeAPI_ControlDevice: only the
presence of the 'capability' key and that object are consulted. -/
structure ControlResult where
  capability : Option ControlEcho

/-- Result handling of async_GoveeAPI_ControlDevice (utils.py 222-249): a
None response (network error or any non-2xx, which the POST helper maps to
None) returns (False, cache unchanged); a response without a 'capability'
key returns (False, cache unchanged); otherwise the echoed value — when it
is not None — is moved into a fresh state dict, the matching cached entry
is overwritten through the patch loop, and True is returned (even when the
echo carried no value at all). -/
def async_GoveeAPI_ControlDevice (caps : List CachedCap) (result : Option ControlResult) :
    Bool × List CachedCap :=
  match result with
  | none => (false, caps)
  | some r =>
    match r.capability with
    | none => (false, caps)
    | some echo =>
      let new_cap : CachedCap :=
        { ctype := echo.ctype, cinst := echo.cinst,
          state := match echo.value with
            | .vnone => none
            | v => some [("value", v)] }
      (true, patchCapability caps new_cap)

/-- Python round() as used on the exact value of the brightness formula:
round half to even on rationals (Python floats are modelled by exact
rational arithmetic; the values involved are far from representation
boundaries). -/
def pyRound (q : ℚ) : ℤ :=
  if q - ⌊q⌋ < 1/2 then ⌊q⌋
  else if q - ⌊q⌋ > 1/2 then ⌊q⌋ + 1
  else if ⌊q⌋ % 2 = 0 then ⌊q⌋ else ⌊q⌋ + 1

/-- brightness_to_value (light.py 35-38): convert Home Assistant brightness
(0-255) to a device value, round(((max_value - min_value) * (brightness / 255)) + min_value). -/
def brightness_to_value (scale : ℤ × ℤ) (brightness : ℤ) : ℤ :=
  pyRound (((scale.2 - scale.1 : ℤ) : ℚ) * ((brightness : ℚ) / 255) + (scale.1 : ℚ))

/-- RGB combination of GoveeLifeLight.async_turn_on (light.py 297):
rgb_value = (rgb[0] << 16) + (rgb[1] << 8) + rgb[2]. -/
def rgbEncode (rgb : ℕ × ℕ × ℕ) : ℕ :=
  (rgb.1 <<< 16) + (rgb.2.1 <<< 8) + rgb.2.2

/-- RGB decomposition of the GoveeLifeLight.rgb_color property (light.py
251-255): ((value >> 16) & 0xFF, (value >> 8) & 0xFF, value & 0xFF). -/
def rgbDecode (value : ℕ) : ℕ × ℕ × ℕ :=
  ((value >>> 16) &&& 0xFF, (value >>> 8) &&& 0xFF, value &&& 0xFF)

/-- Option entry of an on_off capability (an element of parameters.options;
the parser reads option['name'] and option['value']). -/
structure PowerOption where
  name : String
  value : PyVal

/-- Python dict update over a PyVal-keyed mapping (overwrite in place or
append), as performed by self._state_mapping[option['value']] = state. -/
def pyMapSet (m : List (PyVal × String)) (k : PyVal) (v : String) : List (PyVal × String) :=
  if m.any (fun e => PyVal.beq e.1 k) then m.map (fun e => if PyVal.beq e.1 k then (k, v) else e)
  else m ++ [(k, v)]

/-- Python dict.get over a PyVal-keyed mapping (None when absent). -/
def pyMapGet (m : List (PyVal × String)) (k : PyVal) : Option String :=
  (m.find? (fun e => PyVal.beq e.1 k)).map (fun e => e.2)

/-- _handle_power_capability, textually identical in light.py 144-152,
fan.py 103-111 and humidifier.py 131-139: walk the on_off options and map
each raw option value named on or off to the abstract state string
STATE_ON = "on" or STATE_OFF = "off"; other option names are skipped. -/
def powerStateMapping (options : List PowerOption) : List (PyVal × String) :=
  options.foldl (fun m option =>
    if option.name == "on" then pyMapSet m option.value "on"
    else if option.name == "off" then pyMapSet m option.value "off"
    else m) []

/-- is_on property, textually identical in light.py 265-272, fan.py 226-233
and humidifier.py 258-265: self._state_mapping.get(value) == STATE_ON,
where value is the cached powerSwitch value (None, i.e. vnone, when the
cache holds nothing for the key). -/
def goveeIsOn (state_mapping : List (PyVal × String)) (value : PyVal) : Bool :=
  match pyMapGet state_mapping value with
  | some s => s == "on"
  | none => false

/-- One capability command dict as built by the entities:
the type, instance and value entries of the control request. -/
structure GoveeCommand where
  ctype : String
  cinst : String
  value : PyVal

/-- Keyword arguments of GoveeLifeLight.async_turn_on that the method reads
(light.py 279-306). -/
structure TurnOnArgs where
  brightness : Option ℤ := none
  color_temp_kelvin : Option ℤ := none
  rgb_color : Option (ℕ × ℕ × ℕ) := none
  effect : Option String := none

/-- Per-entity data consulted by GoveeLifeLight.async_turn_on: the parsed
brightness scale, the music and scene mode tables, the raw option value
self._state_mapping_set[STATE_ON] (present for every device exposing an on
option; Python would raise KeyError otherwise), and the current value of
the is_on property. -/
structure LightEntityState where
  brightness_scale : ℤ × ℤ
  music_modes : List (String × PyVal)
  scene_modes : List (String × PyVal)
  power_on_value : PyVal
  is_on : Bool

/-- Python dict indexing m[k] on a string-keyed table whose membership was
just tested (KeyError is unreachable on the guarded paths). -/
def strMapGet (m : List (String × PyVal)) (k : String) : PyVal :=
  match m.find? (fun e => e.1 == k) with
  | some e => e.2
  | none => .vnone

/-- Command assembly of GoveeLifeLight.async_turn_on (light.py 274-327):
brightness, colour-temperature, RGB and effect commands are collected in
code order, and the power-on command is appended last when the light is not
on or no other command was produced. -/
def lightTurnOnCommands (e : LightEntityState) (kwargs : TurnOnArgs) : List GoveeCommand :=
  let commands : List GoveeCommand := []
  let commands := match kwargs.brightness with
    | some b => commands ++
        [⟨"devices.capabilities.range", "brightness", .vint (brightness_to_value e.brightness_scale b)⟩]
    | none => commands
  let commands := match kwargs.color_temp_kelvin with
    | some k => commands ++
        [⟨"devices.capabilities.color_setting", "colorTemperatureK", .vint k⟩]
    | none => commands
  let commands := match kwargs.rgb_color with
    | some rgb => commands ++
        [⟨"devices.capabilities.color_setting", "colorRgb", .vint (rgbEncode rgb)⟩]
    | none => commands
  let commands := match kwargs.effect with
    | some effect =>
      if effect.startsWith "Music:" && e.music_modes.any (fun m => m.1 == effect) then
        commands ++ [⟨"devices.capabilities.music_setting", "musicMode", strMapGet e.music_modes effect⟩]
      else if e.scene_modes.any (fun m => m.1 == effect) then
        commands ++ [⟨"devices.capabilities.dynamic_scene", "lightScene", strMapGet e.scene_modes effect⟩]
      else commands
    | none => commands
  if !e.is_on || commands.isEmpty then
    commands ++ [⟨"devices.capabilities.on_off", "powerSwitch", e.power_on_value⟩]
  else commands

/-- Control request payload built by async_GoveeAPI_ControlDevice (utils.py
204-212) for one call: a fresh correlation id (str(uuid.uuid4()), modelled
by a number drawn from a supply) plus sku, device and the single capability
command passed in. -/
structure ControlPayload where
  requestId : ℕ
  sku : String
  device : String
  capability : GoveeCommand

/-- Send loop of GoveeLifeLight.async_turn_on (light.py 329-334): one
await of async_GoveeAPI_ControlDevice per collected command, so one network
request per command, each with its own freshly generated correlation id. -/
def lightTurnOnRequests (sku device : String) (commands : List GoveeCommand) (uuidSeed : ℕ) :
    List ControlPayload :=
  match commands with
  | [] => []
  | c :: rest => ⟨uuidSeed, sku, device, c⟩ :: lightTurnOnRequests sku device rest (uuidSeed + 1)

/-- Leaf option of a nested gearMode sub-tree: its name and numeric code
(the parser reads gear['name'] and gear['value']; work-mode codes are
numeric in the vendor schema). -/
structure GearOption where
  name : String
  value : ℤ

/-- Option of a work-mode field: its name, numeric code, and the nested
sub-options read one level deep by mode_options[0].get('options', []). -/
structure WorkModeOption where
  name : String
  value : ℤ
  options : List GearOption

/-- Field of a work_mode capability's parameters.fields array. -/
structure WorkModeField where
  fieldName : String
  options : List WorkModeOption

/-- Substring containment on character lists, used to model the Python
expression pat in str(f). -/
def charsContain (pat : List Char) : List Char → Bool
  | [] => pat.isEmpty
  | c :: rest => pat.isPrefixOf (c :: rest) || charsContain pat rest

/-- Python substring test pat in s. -/
def pyInStr (pat s : String) : Bool :=
  charsContain pat.data s.data

/-- Python expression gearMode in str(f) (humidifier.py 159, fan.py 125):
the string representation of the field dict contains the substring
"gearMode"; over the modelled field this holds exactly when one of the
field's strings contains it, since the remaining entries are integers. -/
def fieldMentionsGearMode (f : WorkModeField) : Bool :=
  pyInStr "gearMode" f.fieldName ||
  f.options.any (fun o => pyInStr "gearMode" o.name ||
    o.options.any (fun g => pyInStr "gearMode" g.name))

/-- Python dict update self._modes_mapping[name] = value: overwrite the
existing binding in place or append, keeping insertion order.  A mapping
entry is (mode name, workMode code, modeValue code). -/
def modesMapSet (m : List (String × ℤ × ℤ)) (k : String) (v : ℤ × ℤ) : List (String × ℤ × ℤ) :=
  if m.any (fun e => e.1 == k) then m.map (fun e => if e.1 == k then (k, v) else e)
  else m ++ [(k, v)]

/-- _handle_work_mode_capability (humidifier.py 147-179; the same parser
appears as fan.py 113-145), applied to the workMode-instance capability's
parameters.fields: walk each workMode field's options; a gearMode option
takes the first modeValue field whose repr mentions gearMode, then
flattens the sub-options of that field's first option into leaf mode names
carrying the parent's workMode code; every other option becomes a mode
with the option's code and modeValue 0. -/
def handle_work_mode_capability (fields : List WorkModeField) : List (String × ℤ × ℤ) :=
  fields.foldl (fun m field =>
    if field.fieldName == "workMode" then
      field.options.foldl (fun m mode =>
        if mode.name == "gearMode" then
          let mode_options : List WorkModeOption :=
            match fields.find? (fun f => f.fieldName == "modeValue" && fieldMentionsGearMode f) with
            | some f => f.options
            | none => []
          match mode_options with
          | [] => m
          | first :: _ =>
            first.options.foldl (fun m gear => modesMapSet m gear.name (mode.value, gear.value)) m
        else modesMapSet m mode.name (mode.value, 0)) m
    else m) []

/-- Command value built by async_set_mode (humidifier.py 223-230, fan.py
185-192) from a mapping entry: the object with entries workMode and
modeValue. -/
def modeCommandValue (workMode modeValue : ℤ) : PyVal :=
  .vobj [("workMode", .vint workMode), ("modeValue", .vint modeValue)]

/-- Current-mode lookup of the mode and preset_mode properties
(humidifier.py 195-210, fan.py 161-176): a falsy cached work_mode value
yields None; otherwise the first mapping entry whose workMode code equals
work_mode.get('workMode') and whose modeValue code equals
work_mode.get('modeValue', 0) names the current mode, else None.  The
cached value is a dict whenever present; a non-dict value (on which the
.get calls would raise) is modelled as no match. -/
def goveeCurrentMode (modes_mapping : List (String × ℤ × ℤ)) (work_mode : PyVal) : Option String :=
  if !(pyTruthy work_mode) then none
  else
    match work_mode with
    | .vobj fs =>
      (modes_mapping.find? (fun e =>
        PyVal.beq (.vint e.2.1) (pyDictGet fs "workMode" .vnone) &&
        PyVal.beq (.vint e.2.2) (pyDictGet fs "modeValue" (.vint 0)))).map (fun e => e.1)
    | _ => none

/-- Names bound at module scope of utils.py by its imports and top-level
statements (utils.py 1-30).  The datetime date class is not among them:
utils.py never imports date. -/
def utilsModuleNames : List String :=
  ["annotations", "Final", "logging", "asyncio", "json", "uuid", "requests",
   "HomeAssistant", "ConfigEntry", "AddEntitiesCallback",
   "ATTR_DATE", "CONF_API_KEY", "CONF_COUNT", "CONF_PARAMS", "CONF_STATE",
   "CONF_TIMEOUT", "DOMAIN", "CONF_API_COUNT", "CLOUD_API_URL_OPENAPI",
   "CLOUD_API_HEADER_KEY", "_LOGGER"]

/-- Stored daily request counter entry_data[CONF_API_COUNT]: the request
count and the stored date, the latter as an abstract day number. -/
structure ApiCount where
  count : ℤ
  day : ℕ

/-- Try-block body of async_GooveAPI_CountRequests (utils.py 49-60).  Its
first step evaluates date.today(); the name date is looked up in the
module namespace and raises NameError when absent.  Were the name bound,
the stored entry (defaulting to count 0 at today) would be incremented
when its date equals today and reset to 1 otherwise (the stored date
itself is never rewritten). -/
def countRequestsTry (stored : Option ApiCount) (today : ℕ) : Except String ApiCount :=
  if utilsModuleNames.contains "date" then
    let v := stored.getD ⟨0, today⟩
    if v.day = today then Except.ok ⟨v.count + 1, v.day⟩
    else Except.ok ⟨1, v.day⟩
  else Except.error "NameError: name date is not defined"

/-- async_GooveAPI_CountRequests (utils.py 47-64): the try body's outcome,
with the blanket except clause that only logs and returns, leaving the
stored entry_data[CONF_API_COUNT] value untouched on any exception. -/
def async_GooveAPI_CountRequests (stored : Option ApiCount) (today : ℕ) : Option ApiCount :=
  match countRequestsTry stored today with
  | .ok v => some v
  | .error _ => stored

/-- Value returned by async_GoveeAPI_POSTRequest (utils.py 108-154) as
consumed by async_GoveeAPI_GetDeviceState: None (modelled pnone) for every
non-200 outcome, or the parsed 200 JSON body — a bare integer body
(pint) or a dict body of which only payload.capabilities is ever read,
decoded at this boundary into a capability list (pdict). -/
inductive GoveePostValue where
  | pnone
  | pint (n : ℤ)
  | pdict (payload : List CachedCap)

/-- Status classification of async_GoveeAPI_POSTRequest (utils.py 137-150):
429, 401 and any other non-200 status each log and return None; a 200
returns the parsed body. -/
def goveePostClassify (status : ℤ) (body : GoveePostValue) : GoveePostValue :=
  if status == 429 then .pnone
  else if status == 401 then .pnone
  else if !(status == 200) then .pnone
  else body

/-- Return value of async_GoveeAPI_GetDeviceState: the Python function
returns an int status code, True, or False. -/
inductive DeviceStateResult where
  | code (n : ℤ)
  | ok
  | failed
deriving DecidableEq

/-- async_GoveeAPI_GetDeviceState (utils.py 156-195) applied to the POST
helper's value: an int body is returned as-is when return_status_code is
set (with return_status_code unset, result.get on the int raises and the
blanket except returns False); a None result returns False; a dict result
stores its payload under the device id and returns True. -/
def async_GoveeAPI_GetDeviceState (result : GoveePostValue) (return_status_code : Bool)
    (cache : StateCache) (device : String) : DeviceStateResult × StateCache :=
  match result with
  | .pint n => if return_status_code then (.code n, cache) else (.failed, cache)
  | .pnone => (.failed, cache)
  | .pdict payload => (.ok, listSet cache device payload)

/-- Outcome of GoveeAPIUpdateCoordinator._async_update_data (entities.py
165-196): authFailed models raising ConfigEntryAuthFailed, updateFailed
models raising UpdateFailed (one failed refresh cycle, retried by the
scheduler at the next interval), success returns the value. -/
inductive PollOutcome where
  | authFailed
  | updateFailed
  | success (r : DeviceStateResult)
deriving DecidableEq

/-- Body of _async_update_data (entities.py 171-185): the state fetch is
awaited with return_status_code=True; a result in (429, 401) raises
ConfigEntryAuthFailed, a False result raises UpdateFailed, anything else
is returned. -/
def coordinatorUpdateData (result : DeviceStateResult) : PollOutcome :=
  match result with
  | .code n => if n == 429 || n == 401 then .authFailed else .success (.code n)
  | .failed => .updateFailed
  | .ok => .success .ok

/-- One scheduled poll cycle for a device: the POST status classification
feeding _async_update_data. -/
def pollCycle (status : ℤ) (body : GoveePostValue) (cache : StateCache) (device : String) :
    PollOutcome × StateCache :=
  let r := async_GoveeAPI_GetDeviceState (goveePostClassify status body) true cache device
  (coordinatorUpdateData r.1, r.2)

/-- Per-device outcome inside the setup loop of async_setup_entry:
initialized when the coordinator's first refresh succeeded, skipped when
the per-device except-and-continue handler (init 170-173) caught an
exception and moved on to the next device. -/
inductive SetupDeviceOutcome where
  | initialized
  | skipped
deriving DecidableEq

/-- Per-device setup step of async_setup_entry (init 91-173), reduced
to its state-fetch behaviour: the initial state fetch's return value is
ignored (init 97); the coordinator's first refresh re-runs
_async_update_data, and every exception it raises — UpdateFailed,
ConfigEntryNotReady or ConfigEntryAuthFailed alike — is caught by the
per-device handler, which logs and continues with the next device, so
setup itself proceeds and completes. -/
def setupDeviceStep (status : ℤ) (body : GoveePostValue) (cache : StateCache) (device : String) :
    SetupDeviceOutcome × StateCache :=
  let first := async_GoveeAPI_GetDeviceState (goveePostClassify status body) false cache device
  let refresh := pollCycle status body first.2 device
  match refresh.1 with
  | .success _ => (.initialized, refresh.2)
  | .authFailed => (.skipped, refresh.2)
  | .updateFailed => (.skipped, refresh.2)

theorem floor_12927_255 : ⌊(12927 / 255 : ℚ)⌋ = 50 := by
  rw [show (12927 / 255 : ℚ) = (12927 : ℤ) / (255 : ℕ) by norm_num,
    Rat.floor_intCast_div_natCast]
  decide

/-- Claim C7 (code_bug demonstration): async_GooveAPI_CountRequests never
changes the stored counter.  Its try body evaluates date.today() first,
but the name date is unbound in utils.py, so every call raises NameError,
which the blanket except swallows after logging; the increment/reset logic
is unreachable and the counter is returned exactly as stored. -/
theorem count_requests_is_a_noop (stored : Option ApiCount) (today : ℕ) :
    async_GooveAPI_CountRequests stored today = stored := by
  have h : ¬ ("date" ∈ utilsModuleNames) := by decide
  simp [async_GooveAPI_CountRequests, countRequestsTry, h]

/-- Claim C8: for every raw RGB capability value V in the 24-bit range,
decoding V into (r, g, b) with the rgb_color property's shifts and masks
and re-encoding with async_turn_on's (r << 16) + (g << 8) + b reproduces
V exactly. -/
theorem rgb_decode_encode_roundtrip (V : ℕ) (h : V < 2 ^ 24) :
    rgbEncode (rgbDecode V) = V := by
  simp only [rgbDecode, rgbEncode]
  have h255 : (255 : ℕ) = 2 ^ 8 - 1 := by norm_num
  simp only [Nat.shiftRight_eq_div_pow, Nat.shiftLeft_eq, h255,
    Nat.and_pow_two_sub_one_eq_mod]
  omega

/-- Witness for claim C8 at the spec's example: 16711680 decodes to
(255, 0, 0) and re-encodes to 16711680. -/
theorem rgb_decode_encode_roundtrip_witness :
    rgbDecode 16711680 = (255, 0, 0) ∧ rgbEncode (rgbDecode 16711680) = 16711680 :=
  ⟨by decide, rgb_decode_encode_roundtrip 16711680 (by decide)⟩

/-- Claim C9 counterexample: with the brightness range (1, 100), a turn-on
at Home Assistant brightness 128 produces the device value 51, not the 50
the claim states — round(1 + 99 * 128 / 255) = round(50.694...) = 51. -/
theorem brightness_128_not_50 : brightness_to_value (1, 100) 128 ≠ 50 := by
  simp only [brightness_to_value, pyRound]
  norm_num [floor_12927_255]

/-- Claim C9 amended: with a brightness range capability of min 1 and
max 100, a turn-on request at Home Assistant brightness 128 produces the
device brightness command value round(1 + (99 * 128 / 255)) = 51, and the
brightness command built by async_turn_on carries exactly that value. -/
theorem brightness_128_is_51 :
    brightness_to_value (1, 100) 128 = 51 ∧
    lightTurnOnCommands ⟨(1, 100), [], [], .vint 1, true⟩ { brightness := some 128 }
      = [⟨"devices.capabilities.range", "brightness", .vint 51⟩] := by
  have h51 : brightness_to_value (1, 100) 128 = 51 := by
    simp only [brightness_to_value, pyRound]
    norm_num [floor_12927_255]
  exact ⟨h51, by simp [lightTurnOnCommands, h51]⟩

/-- Claim C5 (code_bug demonstration): an HTTP 401 from the device-state
endpoint is mapped to None by the POST helper, so the status code never
reaches the coordinator; a scheduled poll cycle therefore raises the
generic UpdateFailed (retried at the next interval, cache untouched)
rather than the authentication failure, and during setup the same 401 is
swallowed by the per-device handler — the device is skipped, setup
proceeds, and no fatal non-retried failure occurs. -/
theorem poll_401_generic_failure (body : GoveePostValue) (cache : StateCache) (device : String) :
    pollCycle 401 body cache device = (.updateFailed, cache) ∧
    setupDeviceStep 401 body cache device = (.skipped, cache) ∧
    PollOutcome.updateFailed ≠ PollOutcome.authFailed :=
  ⟨rfl, rfl, fun h => nomatch h⟩

theorem pyMapGet_none_of_all_not_beq (m : List (PyVal × String)) (v : PyVal)
    (h : m.all (fun e => !(PyVal.beq e.1 v)) = true) : pyMapGet m v = none := by
  induction m with
  | nil => rfl
  | cons e rest ih =>
    simp only [List.all_cons, Bool.and_eq_true, Bool.not_eq_true'] at h
    simp only [pyMapGet, List.find?, h.1]
    exact ih h.2

/-- Claim C10 counterexample: the claim fails when an on option carries a
null raw value — the parser then maps the key None to "on", and with the
State Cache empty the powerSwitch lookup returns None, so is_on returns
True even though the cached value is absent. -/
theorem is_on_null_option_counterexample :
    powerStateMapping [⟨"on", .vnone⟩] = [(.vnone, "on")] ∧
    cachedStateValue [] "dev" "devices.capabilities.on_off" "powerSwitch" = .vnone ∧
    goveeIsOn (powerStateMapping [⟨"on", .vnone⟩])
      (cachedStateValue [] "dev" "devices.capabilities.on_off" "powerSwitch") = true :=
  ⟨rfl, rfl, rfl⟩

/-- Claim C10 amended: for the shared is_on property of the light, fan and
humidifier entities, whenever the looked-up powerSwitch value — None when
the State Cache holds nothing — is not among the option values parsed into
the on/off state mapping, is_on returns False rather than raising or
reporting unknown.  (The unamended claim fails only when an option
literally carries a null value, making None itself a parsed key.) -/
theorem is_on_false_when_unmapped (options : List PowerOption) (v : PyVal)
    (h : (powerStateMapping options).all (fun e => !(PyVal.beq e.1 v)) = true) :
    goveeIsOn (powerStateMapping options) v = false := by
  simp only [goveeIsOn, pyMapGet_none_of_all_not_beq _ _ h]

/-- Witness for amended claim C10: with the usual on/off options 1/0 and an
absent cache value, is_on is False. -/
theorem is_on_false_when_unmapped_witness :
    goveeIsOn (powerStateMapping [⟨"on", .vint 1⟩, ⟨"off", .vint 0⟩]) .vnone = false :=
  is_on_false_when_unmapped [⟨"on", .vint 1⟩, ⟨"off", .vint 0⟩] .vnone (by decide)

/-- Claim C2 counterexample: an echo that contains a capability object but
no value — a malformed echo lacking a proper capability-value pair — makes
the control call return True and overwrite the cached entry: with
powerSwitch cached at 1, the call reports success and a subsequent get
returns None instead of the previously cached 1. -/
theorem control_valueless_echo_counterexample :
    (async_GoveeAPI_ControlDevice
        [⟨"devices.capabilities.on_off", "powerSwitch", some [("value", .vint 1)]⟩]
        (some ⟨some ⟨"devices.capabilities.on_off", "powerSwitch", .vnone⟩⟩)).1 = true ∧
    GoveeAPI_GetCachedStateValue
        (async_GoveeAPI_ControlDevice
          [⟨"devices.capabilities.on_off", "powerSwitch", some [("value", .vint 1)]⟩]
          (some ⟨some ⟨"devices.capabilities.on_off", "powerSwitch", .vnone⟩⟩)).2
        "devices.capabilities.on_off" "powerSwitch" = .vnone ∧
    GoveeAPI_GetCachedStateValue
        [⟨"devices.capabilities.on_off", "powerSwitch", some [("value", .vint 1)]⟩]
        "devices.capabilities.on_off" "powerSwitch" = .vint 1 ∧
    PyVal.vnone ≠ PyVal.vint 1 :=
  ⟨rfl, rfl, rfl, fun h => nomatch h⟩

/-- Claim C2 amended: a control call that fails with a null response (the
POST helper returns None for every network error and non-2xx status) or
with an echo lacking the capability key returns success False and leaves
the State Cache entry unchanged, so a subsequent get returns the
previously cached value; an echo that carries a capability object without
a value, however, returns True and clears the matching entry's state. -/
theorem control_failure_leaves_cache (caps : List CachedCap) (result : Option ControlResult)
    (h : result = none ∨ ∃ r, result = some r ∧ r.capability = none) :
    async_GoveeAPI_ControlDevice caps result = (false, caps) := by
  rcases h with h | ⟨r, hr, hc⟩
  · rw [h]; rfl
  · rw [hr]
    simp [async_GoveeAPI_ControlDevice, hc]

/-- Witness for amended claim C2: the failed control attempt to set
powerSwitch leaves the cached value 1 readable. -/
theorem control_failure_leaves_cache_witness :
    async_GoveeAPI_ControlDevice
        [⟨"devices.capabilities.on_off", "powerSwitch", some [("value", .vint 1)]⟩] none
      = (false, [⟨"devices.capabilities.on_off", "powerSwitch", some [("value", .vint 1)]⟩]) ∧
    GoveeAPI_GetCachedStateValue
        [⟨"devices.capabilities.on_off", "powerSwitch", some [("value", .vint 1)]⟩]
        "devices.capabilities.on_off" "powerSwitch" = .vint 1 :=
  ⟨control_failure_leaves_cache _ none (Or.inl rfl), rfl⟩

theorem get_no_match (caps : List CachedCap) (t i : String)
    (h : ∀ c ∈ caps, capKeyIs t i c = false) :
    GoveeAPI_GetCachedStateValue caps t i = .vnone := by
  induction caps with
  | nil => rfl
  | cons cap rest ih =>
    have hc : (cap.ctype == t && cap.cinst == i) = false := h cap (List.mem_cons_self cap rest)
    simp only [GoveeAPI_GetCachedStateValue, hc, Bool.false_eq_true, if_false]
    exact ih fun c hmem => h c (List.mem_cons_of_mem cap hmem)

theorem patch_no_match (caps : List CachedCap) (new_cap : CachedCap)
    (h : ∀ c ∈ caps, capKeyIs new_cap.ctype new_cap.cinst c = false) :
    patchCapability caps new_cap = caps := by
  induction caps with
  | nil => rfl
  | cons cap rest ih =>
    have hc : (cap.ctype == new_cap.ctype && cap.cinst == new_cap.cinst) = false :=
      h cap (List.mem_cons_self cap rest)
    simp only [patchCapability, hc, Bool.false_eq_true, if_false, List.cons.injEq, true_and]
    exact ih fun c hmem => h c (List.mem_cons_of_mem cap hmem)

theorem patch_at_match (pre post : List CachedCap) (old new_cap : CachedCap)
    (hpre : ∀ c ∈ pre, capKeyIs new_cap.ctype new_cap.cinst c = false)
    (hold : capKeyIs new_cap.ctype new_cap.cinst old = true) :
    patchCapability (pre ++ old :: post) new_cap = pre ++ new_cap :: post := by
  induction pre with
  | nil =>
    have hc : (old.ctype == new_cap.ctype && old.cinst == new_cap.cinst) = true := hold
    simp only [List.nil_append, patchCapability, hc, if_true]
  | cons cap rest ih =>
    have hc : (cap.ctype == new_cap.ctype && cap.cinst == new_cap.cinst) = false :=
      hpre cap (List.mem_cons_self cap rest)
    simp only [List.cons_append, patchCapability, hc, Bool.false_eq_true, if_false,
      List.cons.injEq, true_and]
    exact ih fun c hmem => hpre c (List.mem_cons_of_mem cap hmem)

theorem get_skip_prefix (pre rest : List CachedCap) (t i : String)
    (h : ∀ c ∈ pre, capKeyIs t i c = false) :
    GoveeAPI_GetCachedStateValue (pre ++ rest) t i = GoveeAPI_GetCachedStateValue rest t i := by
  induction pre with
  | nil => rfl
  | cons cap pre2 ih =>
    have hc : (cap.ctype == t && cap.cinst == i) = false := h cap (List.mem_cons_self cap pre2)
    simp only [List.cons_append, GoveeAPI_GetCachedStateValue, hc, Bool.false_eq_true, if_false]
    exact ih fun c hmem => h c (List.mem_cons_of_mem cap hmem)

/-- Claim C3 counterexample: patching through the command-echo path when no
entry with the echoed (type, instance) exists appends nothing — the
capability list stays empty and a subsequent get returns absent instead of
the patched value 1. -/
theorem patch_no_append_counterexample :
    (async_GoveeAPI_ControlDevice []
        (some ⟨some ⟨"devices.capabilities.on_off", "powerSwitch", .vint 1⟩⟩)).2 = [] ∧
    GoveeAPI_GetCachedStateValue
        (async_GoveeAPI_ControlDevice []
          (some ⟨some ⟨"devices.capabilities.on_off", "powerSwitch", .vint 1⟩⟩)).2
        "devices.capabilities.on_off" "powerSwitch" = .vnone ∧
    PyVal.vnone ≠ PyVal.vint 1 :=
  ⟨rfl, rfl, fun h => nomatch h⟩

/-- Claim C3 amended: the command-echo patch leaves every entry with a
different (type, instance) unchanged and overwrites the unique matching
entry when one is present — a get on the patched key then returns the
patched value; when no entry matches, the list is left unchanged (nothing
is appended), so a subsequent get returns absent. -/
theorem patch_semantics (new_cap : CachedCap) :
    (∀ caps, (∀ c ∈ caps, capKeyIs new_cap.ctype new_cap.cinst c = false) →
      patchCapability caps new_cap = caps ∧
      GoveeAPI_GetCachedStateValue (patchCapability caps new_cap) new_cap.ctype new_cap.cinst
        = .vnone) ∧
    (∀ pre old post, (∀ c ∈ pre, capKeyIs new_cap.ctype new_cap.cinst c = false) →
      capKeyIs new_cap.ctype new_cap.cinst old = true →
      patchCapability (pre ++ old :: post) new_cap = pre ++ new_cap :: post ∧
      ∀ v, new_cap.state = some [("value", v)] →
        GoveeAPI_GetCachedStateValue (patchCapability (pre ++ old :: post) new_cap)
          new_cap.ctype new_cap.cinst = v) := by
  constructor
  · intro caps h
    refine ⟨patch_no_match caps new_cap h, ?_⟩
    rw [patch_no_match caps new_cap h]
    exact get_no_match caps _ _ h
  · intro pre old post hpre hold
    refine ⟨patch_at_match pre post old new_cap hpre hold, ?_⟩
    intro v hv
    rw [patch_at_match pre post old new_cap hpre hold,
      get_skip_prefix pre (new_cap :: post) _ _ hpre]
    have hself : (new_cap.ctype == new_cap.ctype && new_cap.cinst == new_cap.cinst) = true := by
      simp
    simp only [GoveeAPI_GetCachedStateValue, hself, if_true, hv]
    rfl

/-- Witness for amended claim C3: patching brightness 50 over a two-entry
cache rewrites only the brightness entry and a get returns 50. -/
theorem patch_semantics_witness :
    patchCapability
        [⟨"devices.capabilities.on_off", "powerSwitch", some [("value", .vint 1)]⟩,
         ⟨"devices.capabilities.range", "brightness", some [("value", .vint 20)]⟩]
        ⟨"devices.capabilities.range", "brightness", some [("value", .vint 50)]⟩
      = [⟨"devices.capabilities.on_off", "powerSwitch", some [("value", .vint 1)]⟩,
         ⟨"devices.capabilities.range", "brightness", some [("value", .vint 50)]⟩] ∧
    GoveeAPI_GetCachedStateValue
        (patchCapability
          [⟨"devices.capabilities.on_off", "powerSwitch", some [("value", .vint 1)]⟩,
           ⟨"devices.capabilities.range", "brightness", some [("value", .vint 20)]⟩]
          ⟨"devices.capabilities.range", "brightness", some [("value", .vint 50)]⟩)
        "devices.capabilities.range" "brightness" = .vint 50 := by
  have h := (patch_semantics
    ⟨"devices.capabilities.range", "brightness", some [("value", .vint 50)]⟩).2
    [⟨"devices.capabilities.on_off", "powerSwitch", some [("value", .vint 1)]⟩]
    ⟨"devices.capabilities.range", "brightness", some [("value", .vint 20)]⟩ []
    (by decide) (by decide)
  exact ⟨h.1, h.2 (.vint 50) rfl⟩

/-- Specification-side description of the cache read (spec sections 4.2 and
8), stated over the unique find: the state.value of the unique
(type, instance) match, with the fallback to the field named after the
instance inside state for legacy shapes, and absent (None) when no entry
matches or the matching entry has no state.  Compared below with the
implementation's scan. -/
def stateGetSpec (caps : List CachedCap) (t i : String) : PyVal :=
  match caps.find? (capKeyIs t i) with
  | none => .vnone
  | some c =>
    match c.state with
    | none => .vnone
    | some st => pyDictGet st "value" (pyDictGet st i .vnone)

theorem find_map_set {β : Type} (d : List (String × β)) (k : String) (v : β)
    (h : d.any (fun e => e.1 == k) = true) :
    (d.map (fun e => if e.1 == k then (k, v) else e)).find? (fun e => e.1 == k) = some (k, v) := by
  induction d with
  | nil => simp at h
  | cons e rest ih =>
    by_cases he : (e.1 == k) = true
    · simp only [List.map_cons, he, if_true]
      rw [List.find?_cons_of_pos _ (by simp)]
    · simp only [List.any_cons, he, Bool.false_or] at h
      simp only [List.map_cons, he, if_false, Bool.false_eq_true]
      rw [List.find?_cons_of_neg _ (by simp [he])]
      exact ih h

theorem listGet_listSet {β : Type} (d : List (String × β)) (k : String) (v : β) :
    listGet (listSet d k v) k = some v := by
  by_cases h : d.any (fun e => e.1 == k) = true
  · simp only [listSet, h, if_true, listGet, find_map_set d k v h]
    rfl
  · have hall : ∀ e ∈ d, ¬ ((fun e : String × β => e.1 == k) e = true) := by
      intro e hmem hb
      exact absurd (List.any_of_mem hmem hb) h
    simp only [listSet, h, Bool.false_eq_true, if_false, listGet]
    rw [List.find?_append, List.find?_eq_none.mpr hall]
    simp [List.find?]

theorem scan_eq_spec (caps : List CachedCap) (t i : String)
    (huniq : (caps.filter (capKeyIs t i)).length ≤ 1) :
    GoveeAPI_GetCachedStateValue caps t i = stateGetSpec caps t i := by
  induction caps with
  | nil => rfl
  | cons cap rest ih =>
    by_cases hm : capKeyIs t i cap = true
    · have hrest : ∀ c ∈ rest, capKeyIs t i c = false := by
        intro c hmem
        by_cases hb : capKeyIs t i c = true
        · exfalso
          have hmm : 1 + 1 ≤ (List.filter (capKeyIs t i) (cap :: rest)).length := by
            simp only [List.filter_cons, hm, if_true]
            have hmem2 : c ∈ rest.filter (capKeyIs t i) := List.mem_filter.mpr ⟨hmem, hb⟩
            have hpos : 0 < (rest.filter (capKeyIs t i)).length := List.length_pos.mpr
              (fun hnil => by rw [hnil] at hmem2; exact absurd hmem2 (List.not_mem_nil c))
            simpa using Nat.succ_le_succ hpos
          omega
        · simp only [Bool.not_eq_true] at hb
          exact hb
      have hc : (cap.ctype == t && cap.cinst == i) = true := hm
      have hspec : stateGetSpec (cap :: rest) t i =
          (match cap.state with
           | none => PyVal.vnone
           | some st => pyDictGet st "value" (pyDictGet st i PyVal.vnone)) := by
        unfold stateGetSpec
        rw [List.find?_cons_of_pos _ hm]
      cases hstate : cap.state with
      | some st =>
        rw [hspec, hstate]
        simp only [GoveeAPI_GetCachedStateValue, hc, if_true, hstate]
      | none =>
        rw [hspec, hstate]
        simp only [GoveeAPI_GetCachedStateValue, hc, if_true, hstate]
        exact get_no_match rest t i hrest
    · have hc : (cap.ctype == t && cap.cinst == i) = false := by
        have hb := hm
        simp only [Bool.not_eq_true] at hb
        exact hb
      have huniq2 : (rest.filter (capKeyIs t i)).length ≤ 1 := by
        have heq : (cap :: rest).filter (capKeyIs t i) = rest.filter (capKeyIs t i) := by
          simp [List.filter_cons, show capKeyIs t i cap = false from hc]
        rw [heq] at huniq
        exact huniq
      have hspec : stateGetSpec (cap :: rest) t i = stateGetSpec rest t i := by
        unfold stateGetSpec
        rw [List.find?_cons_of_neg _ hm]
      rw [hspec]
      simp only [GoveeAPI_GetCachedStateValue, hc, Bool.false_eq_true, if_false]
      exact ih huniq2

/-- Claim C4: after a full-state replace stores a capability list whose
(type, instance) keys match at most once, the State Cache read returns
exactly the state.value of the unique matching entry — falling back to a
field named after the instance inside state — and absent when no entry
matches or the matching entry has no state. -/
theorem get_after_replace (cache : StateCache) (device : String) (caps : List CachedCap)
    (t i : String) (huniq : (caps.filter (capKeyIs t i)).length ≤ 1) :
    cachedStateValue ((async_GoveeAPI_GetDeviceState (.pdict caps) false cache device).2)
        device t i
      = stateGetSpec caps t i := by
  show cachedStateValue (listSet cache device caps) device t i = stateGetSpec caps t i
  unfold cachedStateValue
  rw [listGet_listSet]
  exact scan_eq_spec caps t i huniq

/-- Witness for claim C4: a replace storing a single brightness entry with
state value 50 makes the subsequent get return 50. -/
theorem get_after_replace_witness :
    cachedStateValue
        ((async_GoveeAPI_GetDeviceState
          (.pdict [⟨"devices.capabilities.range", "brightness", some [("value", .vint 50)]⟩])
          false [] "dev").2)
        "dev" "devices.capabilities.range" "brightness" = .vint 50 :=
  (get_after_replace [] "dev"
    [⟨"devices.capabilities.range", "brightness", some [("value", .vint 50)]⟩]
    "devices.capabilities.range" "brightness" (by decide)).trans rfl

theorem find_entry_of_mem (m : List (String × ℤ × ℤ)) (name : String) (wm mv : ℤ)
    (hmem : (name, wm, mv) ∈ m) (hinj : ∀ e ∈ m, e.2 = (wm, mv) → e.1 = name) :
    (m.find? (fun e => (e.2.1 == wm) && (e.2.2 == mv))).map (fun e => e.1) = some name := by
  induction m with
  | nil => exact absurd hmem (List.not_mem_nil _)
  | cons e rest ih =>
    cases hb : ((e.2.1 == wm) && (e.2.2 == mv)) with
    | true =>
      have hfind : List.find? (fun x => (x.2.1 == wm) && (x.2.2 == mv)) (e :: rest) = some e := by
        simp [List.find?, hb]
      rw [hfind]
      have hpair : e.2 = (wm, mv) := by
        simp only [Bool.and_eq_true, beq_iff_eq] at hb
        exact Prod.ext hb.1 hb.2
      exact congrArg some (hinj e (List.mem_cons_self e rest) hpair)
    | false =>
      have hfind : List.find? (fun x => (x.2.1 == wm) && (x.2.2 == mv)) (e :: rest)
          = List.find? (fun x => (x.2.1 == wm) && (x.2.2 == mv)) rest := by
        simp [List.find?, hb]
      rw [hfind]
      have hmem2 : (name, wm, mv) ∈ rest := by
        rcases List.mem_cons.mp hmem with heq | hr
        · exfalso
          rw [← heq] at hb
          simp at hb
        · exact hr
      exact ih hmem2 fun c hc => hinj c (List.mem_cons_of_mem e hc)

theorem currentMode_of_commandValue (m : List (String × ℤ × ℤ)) (wm mv : ℤ) :
    goveeCurrentMode m (modeCommandValue wm mv)
      = (m.find? (fun e => (e.2.1 == wm) && (e.2.2 == mv))).map (fun e => e.1) := by
  unfold goveeCurrentMode modeCommandValue
  simp only [pyTruthy, List.isEmpty, Bool.not_false, if_true, pyDictGet, List.find?,
    PyVal.beq, beq_self_eq_true, Bool.and_eq_true]
  rfl

/-- Claim C6 counterexample: two work-mode options that share the numeric
code 1 both parse, but their command values coincide, so reverse-resolving
the value built for ModeB recovers ModeA — the round trip fails for
ModeB. -/
theorem work_mode_round_trip_counterexample :
    ("ModeB", 1, 0) ∈ handle_work_mode_capability
        [⟨"workMode", [⟨"ModeA", 1, []⟩, ⟨"ModeB", 1, []⟩]⟩] ∧
    goveeCurrentMode
        (handle_work_mode_capability [⟨"workMode", [⟨"ModeA", 1, []⟩, ⟨"ModeB", 1, []⟩]⟩])
        (modeCommandValue 1 0) = some "ModeA" ∧
    ¬ goveeCurrentMode
        (handle_work_mode_capability [⟨"workMode", [⟨"ModeA", 1, []⟩, ⟨"ModeB", 1, []⟩]⟩])
        (modeCommandValue 1 0) = some "ModeB" :=
  ⟨by decide, by decide, by decide⟩

/-- Claim C6 amended: for every mode name produced by the work-mode parser
(gear sub-modes included, flattened with the parent workMode code),
constructing its workMode/modeValue command value and reverse-resolving
that exact value through the current-mode lookup recovers the same mode
name, provided no other parsed mode name shares the same command-value
pair (vendor mode codes are distinct per device; the unamended claim fails
when two names collide on the same pair). -/
theorem work_mode_round_trip (fields : List WorkModeField) (name : String) (wm mv : ℤ)
    (hmem : (name, wm, mv) ∈ handle_work_mode_capability fields)
    (hinj : ∀ e ∈ handle_work_mode_capability fields, e.2 = (wm, mv) → e.1 = name) :
    goveeCurrentMode (handle_work_mode_capability fields) (modeCommandValue wm mv)
      = some name :=
  (currentMode_of_commandValue _ wm mv).trans
    (find_entry_of_mem _ name wm mv hmem hinj)

/-- Witness for amended claim C6: a gearMode work-mode capability with gear
leaves Low and High under workMode code 1 and a plain Auto mode; the High
gear's command value reverse-resolves to High. -/
theorem work_mode_round_trip_witness :
    handle_work_mode_capability
        [⟨"workMode", [⟨"gearMode", 1, []⟩, ⟨"Auto", 3, []⟩]⟩,
         ⟨"modeValue", [⟨"gearMode", 0, [⟨"Low", 1⟩, ⟨"High", 2⟩]⟩]⟩]
      = [("Low", 1, 1), ("High", 1, 2), ("Auto", 3, 0)] ∧
    goveeCurrentMode
        (handle_work_mode_capability
          [⟨"workMode", [⟨"gearMode", 1, []⟩, ⟨"Auto", 3, []⟩]⟩,
           ⟨"modeValue", [⟨"gearMode", 0, [⟨"Low", 1⟩, ⟨"High", 2⟩]⟩]⟩])
        (modeCommandValue 1 2) = some "High" :=
  ⟨by decide,
    work_mode_round_trip
      [⟨"workMode", [⟨"gearMode", 1, []⟩, ⟨"Auto", 3, []⟩]⟩,
       ⟨"modeValue", [⟨"gearMode", 0, [⟨"Low", 1⟩, ⟨"High", 2⟩]⟩]⟩]
      "High" 1 2 (by decide) (by decide)⟩

/-- Claim C1 counterexample: a turn-on with brightness 128 and colour red
on a light that is off assembles three capability commands, and the send
loop issues three separate control requests — each under its own
correlation id 0, 1, 2 — not a single request with a command list. -/
theorem turn_on_multi_request_counterexample :
    (lightTurnOnRequests "H6159" "AA:BB:CC"
        (lightTurnOnCommands ⟨(1, 100), [], [], .vint 1, false⟩
          { brightness := some 128, rgb_color := some (255, 0, 0) }) 0).length = 3 ∧
    ¬ (lightTurnOnRequests "H6159" "AA:BB:CC"
        (lightTurnOnCommands ⟨(1, 100), [], [], .vint 1, false⟩
          { brightness := some 128, rgb_color := some (255, 0, 0) }) 0).length = 1 ∧
    (lightTurnOnRequests "H6159" "AA:BB:CC"
        (lightTurnOnCommands ⟨(1, 100), [], [], .vint 1, false⟩
          { brightness := some 128, rgb_color := some (255, 0, 0) }) 0).map
        (fun r => r.requestId) = [0, 1, 2] := by
  refine ⟨rfl, ?_, rfl⟩
  intro h
  rw [show (lightTurnOnRequests "H6159" "AA:BB:CC"
    (lightTurnOnCommands ⟨(1, 100), [], [], .vint 1, false⟩
      { brightness := some 128, rgb_color := some (255, 0, 0) }) 0).length = 3 from rfl] at h
  exact absurd h (by decide)

/-- Claim C1 amended: async_turn_on sends one control request per assembled
capability command — in command order, the power-on command last — each
request carrying exactly one capability and its own freshly generated
correlation id, rather than one batched request with an ordered command
list under a single id. -/
theorem turn_on_one_request_per_command (e : LightEntityState) (kwargs : TurnOnArgs)
    (sku device : String) (seed : ℕ) :
    (lightTurnOnRequests sku device (lightTurnOnCommands e kwargs) seed).map
        (fun r => r.capability) = lightTurnOnCommands e kwargs ∧
    (lightTurnOnRequests sku device (lightTurnOnCommands e kwargs) seed).map
        (fun r => r.requestId)
      = List.range' seed (lightTurnOnCommands e kwargs).length := by
  generalize lightTurnOnCommands e kwargs = cmds
  induction cmds generalizing seed with
  | nil => exact ⟨rfl, rfl⟩
  | cons c rest ih =>
    have hr := ih (seed + 1)
    refine ⟨?_, ?_⟩
    · simp only [lightTurnOnRequests, List.map_cons, hr.1]
    · simp only [lightTurnOnRequests, List.map_cons, hr.2, List.length_cons, List.range']

end GoveeLife
